import Mathlib

/-!
# perfops-cli: the `resolve` command (cmd/dnsresolve.go)

A shallow embedding of `runDNSResolve` and `printPartialDNSOutput`, and the
properties of the submit / poll / dedupe-and-render protocol.

* Go's `map[string]bool` is a function `String → Bool` (a missing key reads
  `false`, exactly as in Go).
* `printf` is a sink: the embedding returns the list of calls it received, each
  tagged with the item the loop iteration was working on.
* The remote service is a script: the answer of the submit call and the list of
  answers of the successive fetch calls.
-/

namespace PerfOps

/-! ## Data model (package perfops, used by cmd/dnsresolve.go) -/

/-- Country of a node: only `Name` is read by the command. -/
structure Country where
  Name : String
deriving DecidableEq

/-- Modelled from the spec: the type declaration of `perfops.Node` is not part
of the sources; NodeInfo is {id: integer, asNumber: integer, city: string,
countryName: string}. -/
structure Node where
  ID : Int
  AsNumber : Int
  City : String
  Country : Country
deriving DecidableEq

/-- Modelled from the spec: the type declaration of `perfops.DNSTestResult` is
not part of the sources; Result is {node: NodeInfo, message: string,
rawOutputLines: ordered sequence of string}. -/
structure DNSTestResult where
  Node : Node
  Message : String
  rawOutputLines : List String
deriving DecidableEq

/-- Modelled from the spec: the method `ResolveOutput` of `perfops.DNSTestResult`
is not part of the sources; it yields the raw output lines of the result. -/
def DNSTestResult.ResolveOutput (r : DNSTestResult) : List String :=
  r.rawOutputLines

/-- Modelled from the spec: ResultItem is {id: string, result: Result}. -/
structure DNSTestItem where
  ID : String
  Result : DNSTestResult
deriving DecidableEq

/-- Modelled from the spec: Snapshot is {items: ordered sequence of ResultItem,
finished: boolean}. -/
structure DNSTestOutput where
  Items : List DNSTestItem
  Finished : Bool
deriving DecidableEq

/-- Modelled from the spec: the method `IsFinished` of `perfops.DNSTestOutput` is
not part of the sources; it reports the `finished` flag of the snapshot. -/
def DNSTestOutput.IsFinished (o : DNSTestOutput) : Bool :=
  o.Finished

/-! ## `fmt.Printf` on the verbs the command uses -/

/-- An operand of a `Printf` call. -/
inductive Arg where
  | int (i : Int)
  | str (s : String)
deriving DecidableEq

/-- Rendering of one operand under a verb: `%d` of an integer is its decimal
form, `%s` and `%v` of a string are the string itself, `%v` of an integer is its
decimal form. Any other pairing does not occur in the command; it is rendered
as the opening `%!` of Go's bad-verb report. -/
def Arg.render (verb : Char) (a : Arg) : List Char :=
  match a with
  | .int i => if verb = 'd' ∨ verb = 'v' then (toString i).data else "%!".data
  | .str s => if verb = 's' ∨ verb = 'v' then s.data else "%!".data

/-- The characters produced by `fmt.Sprintf format args` for formats made of
plain text and one-letter verbs, as in the command: a `%` followed by a verb
consumes the next operand, every other character is copied. A verb with no
operand left, or a trailing `%`, gives Go's error markers. -/
def sprintfChars : List Char → List Arg → List Char
  | [], _ => []
  | c :: cs, as =>
    if c = '%' then
      match cs, as with
      | v :: cs', a :: as' => a.render v ++ sprintfChars cs' as'
      | v :: cs', [] => "%!".data ++ v :: "(MISSING)".data ++ sprintfChars cs' []
      | [], _ => "%!(NOVERB)".data
    else c :: sprintfChars cs as

/-- Text written by `fmt.Printf format args`. -/
def Sprintf (format : String) (args : List Arg) : String :=
  String.mk (sprintfChars format.data args)

/-! ## `printPartialDNSOutput` -/

/-- The Go map `printedIDs map[string]bool`. -/
abbrev PrintedIDs := String → Bool

/-- The empty map `map[string]bool{}`. -/
def emptyIDs : PrintedIDs := fun _ => false

/-- The assignment `printedIDs[id] = true`. -/
def markPrinted (printedIDs : PrintedIDs) (id : String) : PrintedIDs :=
  fun k => if k = id then true else printedIDs k

/-- One call of the `printf` argument, with the item of the loop iteration that
made it. -/
structure Emission where
  item : DNSTestItem
  text : String
deriving DecidableEq

/-- The sentence substituted for the output `-2`. -/
def timeoutSentence : String :=
  "The command timed-out. It either took too long to execute or we could not connect to your target at all."

/-- The format string of both `printf` calls of `printPartialDNSOutput`. -/
def nodeFormat : String := "Node%d, AS%d, %s, %s\n%s\n"

/-- The `printf` call of `printPartialDNSOutput` for node `n` and body `o`. -/
def printfNode (n : Node) (o : String) : String :=
  Sprintf nodeFormat [.int n.ID, .int n.AsNumber, .str n.City, .str n.Country.Name, .str o]

/-- Body of the `for` loop of `printPartialDNSOutput` for one item: the map
after the iteration and the `printf` calls it made. -/
def printPartialDNSOutputItem (getOutput : DNSTestResult → String)
    (printedIDs : PrintedIDs) (item : DNSTestItem) : PrintedIDs × List Emission :=
  if printedIDs item.ID then
    (printedIDs, [])
  else
    let r := item.Result
    let n := r.Node
    if r.Message = "" then
      let o := getOutput r
      let o := if o = "-2" then timeoutSentence else o
      (markPrinted printedIDs item.ID, [⟨item, printfNode n o⟩])
    else if r.Message ≠ "NO DATA" then
      (markPrinted printedIDs item.ID, [⟨item, printfNode n r.Message⟩])
    else
      (printedIDs, [])

/-- The `for _, item := range output.Items` loop. -/
def printPartialDNSOutputItems (getOutput : DNSTestResult → String) :
    List DNSTestItem → PrintedIDs → PrintedIDs × List Emission
  | [], printedIDs => (printedIDs, [])
  | item :: rest, printedIDs =>
    let s := printPartialDNSOutputItem getOutput printedIDs item
    let t := printPartialDNSOutputItems getOutput rest s.1
    (t.1, s.2 ++ t.2)

/-- The function `printPartialDNSOutput`: the map after the pass and the
`printf` calls of the pass, in order. -/
def printPartialDNSOutput (getOutput : DNSTestResult → String)
    (output : DNSTestOutput) (printedIDs : PrintedIDs) : PrintedIDs × List Emission :=
  printPartialDNSOutputItems getOutput output.Items printedIDs

/-- The `getOutput` closure that `runDNSResolve` passes:
`strings.Join(r.ResolveOutput(), "\n")`. -/
def resolveGetOutput (r : DNSTestResult) : String :=
  String.intercalate "\n" r.ResolveOutput

/-- Successive passes of `printPartialDNSOutput` over a sequence of snapshots
sharing one map: the final map and the `printf` calls of each pass. -/
def printPasses (getOutput : DNSTestResult → String) :
    List DNSTestOutput → PrintedIDs → PrintedIDs × List (List Emission)
  | [], printedIDs => (printedIDs, [])
  | output :: rest, printedIDs =>
    let s := printPartialDNSOutput getOutput output printedIDs
    let t := printPasses getOutput rest s.1
    (t.1, s.2 :: t.2)

/-! ## `runDNSResolve` -/

/-- The type `perfops.TestID`: an opaque identifier, a string. -/
abbrev TestID := String

/-- A Go `error` value. -/
abbrev Error := String

/-- The request built by `runDNSResolve` (`perfops.DNSResolveRequest`). -/
structure DNSResolveRequest where
  Target : String
  Param : String
  DNSServer : String
  Location : String
  Nodes : List Int
  Limit : Int
deriving DecidableEq

/-- The remote service as one run sees it: the answer of `Run.DNSResolve` to a
request, and the answers of the successive `Run.DNSResolveOutput` calls for a
test identifier. -/
structure Client where
  DNSResolve : DNSResolveRequest → Except Error TestID
  DNSResolveOutput : TestID → List (Except Error DNSTestOutput)

/-- What a run does, in order. `callPrintPartial` records a call of
`printPartialDNSOutput`; `printf` is one call of `fmt.Printf` with the text it
writes. -/
inductive Event where
  | println (s : String)
  | spinnerStart
  | spinnerStop
  | submit (req : DNSResolveRequest)
  | printf (text : String)
  | sleep (ms : Nat)
  | fetch (testID : TestID)
  | callPrintPartial (output : DNSTestOutput)
  | printOutputJSON (output : DNSTestOutput)
deriving DecidableEq

/-- Lines 90 to 96: spinner, the 500 ms wait, the fetch. -/
def fetchEvents (testID : TestID) : List Event :=
  [.spinnerStart, .sleep 500, .fetch testID, .spinnerStop]

/-- Lines 101 to 106: `if !outputJSON { printPartialDNSOutput(fmt.Printf, ...) }`. -/
def renderStep (outputJSON : Bool) (output : DNSTestOutput) (printedIDs : PrintedIDs) :
    PrintedIDs × List Event :=
  if !outputJSON then
    let s := printPartialDNSOutput resolveGetOutput output printedIDs
    (s.1, Event.callPrintPartial output :: s.2.map (fun e => Event.printf e.text))
  else
    (printedIDs, [])

/-- The `for` loop of `runDNSResolve` against the remaining fetch answers: the
error or the last snapshot, and the events. `none` when the answers run out
while the loop is still polling. -/
def pollLoop (outputJSON : Bool) (testID : TestID) :
    List (Except Error DNSTestOutput) → PrintedIDs →
      Option (Except Error DNSTestOutput × List Event)
  | [], _ => none
  | .error err :: _, _ => some (.error err, fetchEvents testID)
  | .ok output :: rest, printedIDs =>
    let s := renderStep outputJSON output printedIDs
    if output.IsFinished then
      some (.ok output, fetchEvents testID ++ s.2)
    else
      match pollLoop outputJSON testID rest s.1 with
      | none => none
      | some (r, tr) => some (r, fetchEvents testID ++ s.2 ++ tr)

/-- The function `runDNSResolve`, with the package variables `debug` and
`outputJSON` as parameters: the returned error (`none` is `nil`) and the events
of the run. `none` when the fetch answers run out while the loop is polling. -/
def runDNSResolve (debug outputJSON : Bool) (c : Client)
    (target queryType dnsServer fromLoc : String) (nodeIDs : List Int) (limit : Int) :
    Option (Option Error × List Event) :=
  let dnsResolveReq : DNSResolveRequest :=
    ⟨target, queryType, dnsServer, fromLoc, nodeIDs, limit⟩
  let start := [Event.println "", .spinnerStart, .submit dnsResolveReq, .spinnerStop]
  match c.DNSResolve dnsResolveReq with
  | .error err => some (some err, start)
  | .ok testID =>
    let dbg :=
      if debug && !outputJSON then [Event.printf (Sprintf "Test ID: %v\n" [.str testID])]
      else []
    match pollLoop outputJSON testID (c.DNSResolveOutput testID) emptyIDs with
    | none => none
    | some (.error err, tr) => some (some err, start ++ dbg ++ tr)
    | some (.ok output, tr) =>
      some (none, start ++ dbg ++ tr ++
        (if outputJSON then [Event.printOutputJSON output] else []))

/-! ## Observations on a run -/

/-- Number of `Run.DNSResolveOutput` calls. -/
def fetchCount (tr : List Event) : Nat :=
  tr.countP (fun e => match e with | .fetch _ => true | _ => false)

/-- The texts written by `fmt.Println` and `fmt.Printf`, in order. -/
def stdoutText (tr : List Event) : List String :=
  tr.filterMap (fun e => match e with
    | .println s => some (s ++ "\n")
    | .printf t => some t
    | _ => none)

/-- The texts written by `fmt.Printf`, in order. -/
def printfTexts (tr : List Event) : List String :=
  tr.filterMap (fun e => match e with | .printf t => some t | _ => none)

/-- The snapshots handed to `printPartialDNSOutput`, in order. -/
def passCalls (tr : List Event) : List DNSTestOutput :=
  tr.filterMap (fun e => match e with | .callPrintPartial o => some o | _ => none)

/-- The snapshots handed to `internal.PrintOutputJSON`, in order. -/
def jsonDocs (tr : List Event) : List DNSTestOutput :=
  tr.filterMap (fun e => match e with | .printOutputJSON o => some o | _ => none)

/-- The texts of all `printf` calls of a sequence of passes. -/
def passTexts (passes : List (List Emission)) : List String :=
  passes.flatten.map (fun e => e.text)

/-- The iterations of the `for` loop of `runDNSResolve` over snapshots that are
not finished: the map after them and their events. -/
def pollTrace (outputJSON : Bool) (testID : TestID) :
    List DNSTestOutput → PrintedIDs → PrintedIDs × List Event
  | [], printedIDs => (printedIDs, [])
  | output :: rest, printedIDs =>
    let s := renderStep outputJSON output printedIDs
    let t := pollTrace outputJSON testID rest s.1
    (t.1, fetchEvents testID ++ s.2 ++ t.2)

/-- The events of `runDNSResolve` up to and including the submit call. -/
def startEvents (req : DNSResolveRequest) : List Event :=
  [.println "", .spinnerStart, .submit req, .spinnerStop]

/-- The `Test ID` line, printed under `debug && !outputJSON`. -/
def debugEvents (debug outputJSON : Bool) (testID : TestID) : List Event :=
  if debug && !outputJSON then [.printf (Sprintf "Test ID: %v\n" [.str testID])] else []

/-! ## Sample data -/

def sampleNode : Node := ⟨7, 15169, "Paris", ⟨"France"⟩⟩

def otherNode : Node := ⟨12, 3320, "Berlin", ⟨"Germany"⟩⟩

/-- Scenario A: one item still in flight. -/
def snapshotA : DNSTestOutput :=
  ⟨[⟨"1", ⟨sampleNode, "NO DATA", []⟩⟩], false⟩

/-- Scenario B: one item with output, one with a status. -/
def snapshotB : DNSTestOutput :=
  ⟨[⟨"1", ⟨sampleNode, "", ["93.184.216.34"]⟩⟩,
    ⟨"2", ⟨otherNode, "Node unreachable", []⟩⟩], false⟩

/-- Scenario C: the items of scenario B, finished. -/
def snapshotC : DNSTestOutput :=
  ⟨snapshotB.Items, true⟩

/-- Scenario D: an item whose output is the sentinel `-2`. -/
def timedOutItem : DNSTestItem :=
  ⟨"4", ⟨sampleNode, "", ["-2"]⟩⟩

/-- An item whose status message is the text `-2`. -/
def statusItem : DNSTestItem :=
  ⟨"5", ⟨otherNode, "-2", ["93.184.216.34"]⟩⟩

/-- A service that accepts the test and answers scenarios A, B, C. -/
def sampleClient : Client :=
  ⟨fun _ => .ok "T1", fun _ => [.ok snapshotA, .ok snapshotB, .ok snapshotC]⟩

/-- A service that accepts the test, answers scenario B, then fails. -/
def failingPollClient : Client :=
  ⟨fun _ => .ok "T1", fun _ => [.ok snapshotB, .error "poll failed"]⟩

/-- A service that rejects the test. -/
def rejectingClient : Client :=
  ⟨fun _ => .error "submit failed", fun _ => []⟩

/-- The request of the sample runs. -/
def sampleRequest : DNSResolveRequest :=
  ⟨"example.com", "A", "8.8.8.8", "", [], 1⟩

/-- The events of the sample run against `sampleClient` with `outputJSON` set. -/
def sampleJSONTrace : List Event :=
  [.println "", .spinnerStart, .submit sampleRequest, .spinnerStop,
    .spinnerStart, .sleep 500, .fetch "T1", .spinnerStop,
    .spinnerStart, .sleep 500, .fetch "T1", .spinnerStop,
    .spinnerStart, .sleep 500, .fetch "T1", .spinnerStop,
    .printOutputJSON snapshotC]

/-! ## Lemmas on one loop iteration -/

theorem item_of_printed (g : DNSTestResult → String) (p : PrintedIDs) (item : DNSTestItem)
    (h : p item.ID = true) : printPartialDNSOutputItem g p item = (p, []) := by
  simp [printPartialDNSOutputItem, h]

theorem item_of_noData (g : DNSTestResult → String) (p : PrintedIDs) (item : DNSTestItem)
    (h : item.Result.Message = "NO DATA") : printPartialDNSOutputItem g p item = (p, []) := by
  simp [printPartialDNSOutputItem, h]

theorem item_of_output (g : DNSTestResult → String) (p : PrintedIDs) (item : DNSTestItem)
    (hp : p item.ID = false) (h : item.Result.Message = "") :
    printPartialDNSOutputItem g p item =
      (markPrinted p item.ID,
        [⟨item, printfNode item.Result.Node
          (if g item.Result = "-2" then timeoutSentence else g item.Result)⟩]) := by
  simp [printPartialDNSOutputItem, hp, h]

theorem item_of_status (g : DNSTestResult → String) (p : PrintedIDs) (item : DNSTestItem)
    (hp : p item.ID = false) (h : item.Result.Message ≠ "")
    (h2 : item.Result.Message ≠ "NO DATA") :
    printPartialDNSOutputItem g p item =
      (markPrinted p item.ID, [⟨item, printfNode item.Result.Node item.Result.Message⟩]) := by
  simp [printPartialDNSOutputItem, hp, h, h2]

/-- An iteration either leaves the map alone and prints nothing, or marks the
item's ID and prints once, for that item; the second happens exactly when the
ID is unmarked and the message is not `NO DATA`. -/
theorem item_cases (g : DNSTestResult → String) (p : PrintedIDs) (item : DNSTestItem) :
    ((p item.ID = true ∨ item.Result.Message = "NO DATA") ∧
        printPartialDNSOutputItem g p item = (p, [])) ∨
    (p item.ID = false ∧ item.Result.Message ≠ "NO DATA" ∧
        ∃ t, printPartialDNSOutputItem g p item = (markPrinted p item.ID, [⟨item, t⟩])) := by
  by_cases hp : p item.ID = true
  · exact Or.inl ⟨Or.inl hp, item_of_printed g p item hp⟩
  · have hp' : p item.ID = false := by simpa using hp
    by_cases hn : item.Result.Message = "NO DATA"
    · exact Or.inl ⟨Or.inr hn, item_of_noData g p item hn⟩
    · refine Or.inr ⟨hp', hn, ?_⟩
      by_cases he : item.Result.Message = ""
      · exact ⟨_, item_of_output g p item hp' he⟩
      · exact ⟨_, item_of_status g p item hp' he hn⟩

theorem markPrinted_self (p : PrintedIDs) (x : String) : markPrinted p x x = true := by
  simp [markPrinted]

theorem markPrinted_of_ne (p : PrintedIDs) (x y : String) (h : y ≠ x) :
    markPrinted p x y = p y := by
  simp [markPrinted, h]

theorem markPrinted_mono (p : PrintedIDs) (x y : String) (h : p y = true) :
    markPrinted p x y = true := by
  simp [markPrinted, h]

/-! ## Lemmas on one pass -/

theorem items_nil (g : DNSTestResult → String) (p : PrintedIDs) :
    printPartialDNSOutputItems g [] p = (p, []) := rfl

theorem items_cons (g : DNSTestResult → String) (p : PrintedIDs) (item : DNSTestItem)
    (rest : List DNSTestItem) :
    printPartialDNSOutputItems g (item :: rest) p =
      ((printPartialDNSOutputItems g rest (printPartialDNSOutputItem g p item).1).1,
        (printPartialDNSOutputItem g p item).2 ++
          (printPartialDNSOutputItems g rest (printPartialDNSOutputItem g p item).1).2) := rfl

/-- A pass never unmarks an ID. -/
theorem items_mono (g : DNSTestResult → String) (x : String) :
    ∀ (items : List DNSTestItem) (p : PrintedIDs), p x = true →
      (printPartialDNSOutputItems g items p).1 x = true := by
  intro items
  induction items with
  | nil => intro p h; simpa [items_nil] using h
  | cons item rest ih =>
    intro p h
    rw [items_cons]
    apply ih
    rcases item_cases g p item with ⟨_, e⟩ | ⟨_, _, t, e⟩
    · rw [e]; exact h
    · rw [e]; exact markPrinted_mono p _ _ h

/-- A pass prints nothing for an ID that is already marked. -/
theorem items_printed_silent (g : DNSTestResult → String) (x : String) :
    ∀ (items : List DNSTestItem) (p : PrintedIDs), p x = true →
      ∀ e ∈ (printPartialDNSOutputItems g items p).2, e.item.ID ≠ x := by
  intro items
  induction items with
  | nil => intro p _ e he; simp [items_nil] at he
  | cons item rest ih =>
    intro p h e he
    rw [items_cons] at he
    rcases item_cases g p item with ⟨_, eq⟩ | ⟨hp, _, t, eq⟩
    · rw [eq] at he
      simp only [List.nil_append] at he
      exact ih p h e he
    · rw [eq] at he
      simp only [List.singleton_append, List.mem_cons] at he
      rcases he with rfl | he
      · intro hx
        simp only at hx
        rw [hx, h] at hp
        exact Bool.noConfusion hp
      · exact ih _ (markPrinted_mono p _ _ h) e he

/-- Every call of a pass is for an item of the snapshot whose message is not
`NO DATA` and whose ID was unmarked before the pass. -/
theorem items_emission_sound (g : DNSTestResult → String) :
    ∀ (items : List DNSTestItem) (p : PrintedIDs),
      ∀ e ∈ (printPartialDNSOutputItems g items p).2,
        e.item ∈ items ∧ e.item.Result.Message ≠ "NO DATA" ∧ p e.item.ID = false := by
  intro items
  induction items with
  | nil => intro p e he; simp [items_nil] at he
  | cons item rest ih =>
    intro p e he
    rw [items_cons] at he
    rcases item_cases g p item with ⟨_, eq⟩ | ⟨hp, hn, t, eq⟩
    · rw [eq] at he
      simp only [List.nil_append] at he
      obtain ⟨h1, h2, h3⟩ := ih p e he
      exact ⟨List.mem_cons_of_mem _ h1, h2, h3⟩
    · rw [eq] at he
      simp only [List.singleton_append, List.mem_cons] at he
      rcases he with rfl | he
      · exact ⟨List.mem_cons_self _ _, hn, hp⟩
      · obtain ⟨h1, h2, h3⟩ := ih _ e he
        refine ⟨List.mem_cons_of_mem _ h1, h2, ?_⟩
        by_cases hx : e.item.ID = item.ID
        · rw [hx, markPrinted_self] at h3
          exact Bool.noConfusion h3
        · rw [markPrinted_of_ne _ _ _ hx] at h3
          exact h3

/-- The number of calls of one pass for the ID `x`. -/
theorem items_count_le_one (g : DNSTestResult → String) (x : String) :
    ∀ (items : List DNSTestItem) (p : PrintedIDs),
      (printPartialDNSOutputItems g items p).2.countP (fun e => decide (e.item.ID = x)) ≤ 1 ∧
      (0 < (printPartialDNSOutputItems g items p).2.countP (fun e => decide (e.item.ID = x)) →
        p x = false ∧ (printPartialDNSOutputItems g items p).1 x = true) := by
  intro items
  induction items with
  | nil => intro p; simp [items_nil]
  | cons item rest ih =>
    intro p
    rw [items_cons]
    rcases item_cases g p item with ⟨_, eq⟩ | ⟨hp, _, t, eq⟩
    · rw [eq]
      simpa using ih p
    · rw [eq]
      by_cases hx : item.ID = x
      · subst hx
        have hz : (printPartialDNSOutputItems g rest (markPrinted p item.ID)).2.countP
            (fun e => decide (e.item.ID = item.ID)) = 0 := by
          rw [List.countP_eq_zero]
          intro e he
          have := items_printed_silent g item.ID rest (markPrinted p item.ID)
            (markPrinted_self p item.ID) e he
          simpa using this
        simp only [List.singleton_append, List.countP_cons, hz, decide_True, if_true]
        refine ⟨by omega, fun _ => ⟨hp, ?_⟩⟩
        exact items_mono g item.ID rest _ (markPrinted_self p item.ID)
      · obtain ⟨h1, h2⟩ := ih (markPrinted p item.ID)
        simp only [List.singleton_append, List.countP_cons, hx, decide_False]
        refine ⟨by simpa using h1, fun h => ?_⟩
        obtain ⟨h3, h4⟩ := h2 (by simpa using h)
        refine ⟨?_, h4⟩
        rw [markPrinted_of_ne _ _ _ (Ne.symm hx)] at h3
        exact h3

/-- A pass over a snapshot whose items with ID `x` all read `NO DATA` leaves
an unmarked `x` unmarked. -/
theorem items_noData_unmarked (g : DNSTestResult → String) (x : String) :
    ∀ (items : List DNSTestItem) (p : PrintedIDs),
      (∀ item ∈ items, item.ID = x → item.Result.Message = "NO DATA") → p x = false →
      (printPartialDNSOutputItems g items p).1 x = false := by
  intro items
  induction items with
  | nil => intro p _ h; simpa [items_nil] using h
  | cons item rest ih =>
    intro p hall h
    rw [items_cons]
    apply ih _ (fun it hit => hall it (List.mem_cons_of_mem _ hit))
    rcases item_cases g p item with ⟨_, eq⟩ | ⟨_, hn, t, eq⟩
    · rw [eq]; exact h
    · rw [eq]
      have hx : x ≠ item.ID := fun hx => hn (hall item (List.mem_cons_self _ _) hx.symm)
      show markPrinted p item.ID x = false
      rw [markPrinted_of_ne _ _ _ hx]
      exact h

/-- A pass over a snapshot holding an item with ID `x` and a message other than
`NO DATA` prints for `x` when `x` is unmarked. -/
theorem items_ready_emitted (g : DNSTestResult → String) (x : String) :
    ∀ (items : List DNSTestItem) (p : PrintedIDs),
      (∃ item ∈ items, item.ID = x ∧ item.Result.Message ≠ "NO DATA") → p x = false →
      ∃ e ∈ (printPartialDNSOutputItems g items p).2, e.item.ID = x := by
  intro items
  induction items with
  | nil => intro p h; simp at h
  | cons item rest ih =>
    intro p hex h
    rw [items_cons]
    rcases item_cases g p item with ⟨hc, eq⟩ | ⟨_, _, t, eq⟩
    · rw [eq]
      obtain ⟨it, hit, hid, hm⟩ := hex
      rcases List.mem_cons.mp hit with rfl | hit
      · rcases hc with hc | hc
        · rw [hid, h] at hc; exact Bool.noConfusion hc
        · exact absurd hc hm
      · obtain ⟨e, he, hx⟩ := ih p ⟨it, hit, hid, hm⟩ h
        exact ⟨e, by simpa using he, hx⟩
    · rw [eq]
      by_cases hx : item.ID = x
      · exact ⟨⟨item, t⟩, by simp, hx⟩
      · obtain ⟨it, hit, hid, hm⟩ := hex
        rcases List.mem_cons.mp hit with rfl | hit
        · exact absurd hid hx
        · obtain ⟨e, he, hx'⟩ := ih (markPrinted p item.ID) ⟨it, hit, hid, hm⟩
            (by rw [markPrinted_of_ne _ _ _ (Ne.symm hx)]; exact h)
          exact ⟨e, by simp [he], hx'⟩

/-- The text of every call of a pass, from the item it was made for. -/
theorem items_emission_text (g : DNSTestResult → String) :
    ∀ (items : List DNSTestItem) (p : PrintedIDs),
      ∀ e ∈ (printPartialDNSOutputItems g items p).2,
        e.text =
          if e.item.Result.Message = "" then
            printfNode e.item.Result.Node
              (if g e.item.Result = "-2" then timeoutSentence else g e.item.Result)
          else printfNode e.item.Result.Node e.item.Result.Message := by
  intro items
  induction items with
  | nil => intro p e he; simp [items_nil] at he
  | cons item rest ih =>
    intro p e he
    rw [items_cons] at he
    rcases List.mem_append.mp he with he | he
    · by_cases hp : p item.ID = true
      · rw [item_of_printed g p item hp] at he
        simp at he
      · have hp' : p item.ID = false := by simpa using hp
        by_cases hn : item.Result.Message = "NO DATA"
        · rw [item_of_noData g p item hn] at he
          simp at he
        · by_cases hm : item.Result.Message = ""
          · rw [item_of_output g p item hp' hm] at he
            simp only [List.mem_singleton] at he
            subst he
            simp [hm]
          · rw [item_of_status g p item hp' hm hn] at he
            simp only [List.mem_singleton] at he
            subst he
            simp [hm]
    · exact ih _ e he

/-- The text of the `printf` call, spelled out. -/
theorem printfNode_eq (n : Node) (o : String) :
    printfNode n o =
      "Node" ++ toString n.ID ++ ", AS" ++ toString n.AsNumber ++ ", " ++ n.City ++ ", " ++
        n.Country.Name ++ "\n" ++ o ++ "\n" := by
  apply String.ext
  simp [printfNode, Sprintf, nodeFormat, sprintfChars, Arg.render]

/-- On a snapshot with pairwise distinct IDs, the items a pass prints for are
the unmarked items whose message is not `NO DATA`, in order. -/
theorem items_eq_filter (g : DNSTestResult → String) :
    ∀ (items : List DNSTestItem) (p : PrintedIDs), (items.map (fun it => it.ID)).Nodup →
      (printPartialDNSOutputItems g items p).2.map (fun e => e.item) =
        items.filter (fun it => !p it.ID && decide (it.Result.Message ≠ "NO DATA")) := by
  intro items
  induction items with
  | nil => intro p _; simp [items_nil]
  | cons item rest ih =>
    intro p hnd
    rw [List.map_cons, List.nodup_cons] at hnd
    obtain ⟨hnot, hnd⟩ := hnd
    rw [items_cons]
    rcases item_cases g p item with ⟨hc, eq⟩ | ⟨hp, hn, t, eq⟩
    · rw [eq]
      have hf : (!p item.ID && decide (item.Result.Message ≠ "NO DATA")) = false := by
        rcases hc with hc | hc <;> simp [hc]
      simp only [List.nil_append, List.filter_cons, hf]
      simpa using ih p hnd
    · rw [eq]
      have hf : (!p item.ID && decide (item.Result.Message ≠ "NO DATA")) = true := by
        simp [hp, hn]
      simp only [List.singleton_append, List.map_cons, List.filter_cons, hf, if_true]
      congr 1
      rw [ih _ hnd]
      apply List.filter_congr
      intro it hit
      have hne : it.ID ≠ item.ID := by
        intro h
        exact hnot (h ▸ List.mem_map_of_mem (fun it => it.ID) hit)
      rw [markPrinted_of_ne _ _ _ hne]

/-- The map after a pass is the map before it plus the IDs the pass printed
for. -/
theorem items_marked_iff (g : DNSTestResult → String) (x : String) :
    ∀ (items : List DNSTestItem) (p : PrintedIDs),
      (printPartialDNSOutputItems g items p).1 x = true ↔
        (p x = true ∨ ∃ e ∈ (printPartialDNSOutputItems g items p).2, e.item.ID = x) := by
  intro items
  induction items with
  | nil => intro p; simp [items_nil]
  | cons item rest ih =>
    intro p
    rw [items_cons]
    rcases item_cases g p item with ⟨_, eq⟩ | ⟨_, _, t, eq⟩
    · rw [eq]
      simpa using ih p
    · rw [eq]
      show (printPartialDNSOutputItems g rest (markPrinted p item.ID)).1 x = true ↔ _
      rw [ih (markPrinted p item.ID)]
      by_cases hx : x = item.ID
      · subst hx
        simp [markPrinted_self]
      · simp only [markPrinted_of_ne _ _ _ hx, List.singleton_append, List.mem_cons,
          exists_eq_or_imp]
        constructor
        · rintro (h | h)
          · exact Or.inl h
          · exact Or.inr (Or.inr h)
        · rintro (h | h | h)
          · exact Or.inl h
          · exact absurd h.symm hx
          · exact Or.inr h

/-! ## Lemmas on a sequence of passes -/

theorem passes_nil (g : DNSTestResult → String) (p : PrintedIDs) :
    printPasses g [] p = (p, []) := rfl

theorem passes_cons (g : DNSTestResult → String) (p : PrintedIDs) (output : DNSTestOutput)
    (rest : List DNSTestOutput) :
    printPasses g (output :: rest) p =
      ((printPasses g rest (printPartialDNSOutput g output p).1).1,
        (printPartialDNSOutput g output p).2 ::
          (printPasses g rest (printPartialDNSOutput g output p).1).2) := rfl

/-- Calls for `x` over a sequence of passes: at most one, none when `x` is
marked at the start. -/
theorem passes_count (g : DNSTestResult → String) (x : String) :
    ∀ (snaps : List DNSTestOutput) (p : PrintedIDs),
      (printPasses g snaps p).2.flatten.countP (fun e => decide (e.item.ID = x)) ≤ 1 ∧
      (p x = true →
        (printPasses g snaps p).2.flatten.countP (fun e => decide (e.item.ID = x)) = 0) := by
  intro snaps
  induction snaps with
  | nil => intro p; simp [passes_nil]
  | cons output rest ih =>
    intro p
    rw [passes_cons]
    simp only [List.flatten_cons, List.countP_append]
    obtain ⟨h1, h2⟩ := items_count_le_one g x output.Items p
    obtain ⟨h3, h4⟩ := ih (printPartialDNSOutput g output p).1
    constructor
    · by_cases hz : 0 < (printPartialDNSOutput g output p).2.countP
          (fun e => decide (e.item.ID = x))
      · have := h4 (h2 hz).2
        have h1' : (printPartialDNSOutput g output p).2.countP
            (fun e => decide (e.item.ID = x)) ≤ 1 := h1
        omega
      · omega
    · intro hp
      have hz : (printPartialDNSOutput g output p).2.countP
          (fun e => decide (e.item.ID = x)) = 0 := by
        by_contra hne
        have := (h2 (Nat.pos_of_ne_zero hne)).1
        rw [hp] at this
        exact Bool.noConfusion this
      have := h4 (items_mono g x output.Items p hp)
      omega

/-- The first snapshot in which `x` has a message other than `NO DATA`: the
pass over it prints for `x`, and no earlier pass does. -/
theorem passes_first_ready (g : DNSTestResult → String) (x : String) :
    ∀ (snaps : List DNSTestOutput) (p : PrintedIDs) (k : Nat) (s : DNSTestOutput),
      p x = false → snaps[k]? = some s →
      (∃ item ∈ s.Items, item.ID = x ∧ item.Result.Message ≠ "NO DATA") →
      (∀ j, j < k → ∀ sj, snaps[j]? = some sj →
        ∀ item ∈ sj.Items, item.ID = x → item.Result.Message = "NO DATA") →
      ∃ out, (printPasses g snaps p).2[k]? = some out ∧ (∃ e ∈ out, e.item.ID = x) ∧
        ∀ j, j < k → ∀ oj, (printPasses g snaps p).2[j]? = some oj →
          ∀ e ∈ oj, e.item.ID ≠ x := by
  intro snaps
  induction snaps with
  | nil => intro p k s _ hk; simp at hk
  | cons output rest ih =>
    intro p k s hp hk hready hearlier
    rw [passes_cons]
    cases k with
    | zero =>
      simp only [List.getElem?_cons_zero, Option.some.injEq] at hk
      subst hk
      refine ⟨(printPartialDNSOutput g output p).2, by simp,
        items_ready_emitted g x output.Items p hready hp, ?_⟩
      intro j hj
      exact absurd hj (Nat.not_lt_zero j)
    | succ k =>
      simp only [List.getElem?_cons_succ] at hk
      have h0 : ∀ item ∈ output.Items, item.ID = x → item.Result.Message = "NO DATA" :=
        hearlier 0 (Nat.succ_pos k) output (by simp)
      have hp' : (printPartialDNSOutput g output p).1 x = false :=
        items_noData_unmarked g x output.Items p h0 hp
      obtain ⟨out, ho, hex, hno⟩ := ih (printPartialDNSOutput g output p).1 k s hp' hk hready
        (fun j hj sj hsj => hearlier (j + 1) (Nat.succ_lt_succ hj) sj (by simpa using hsj))
      refine ⟨out, by simpa using ho, hex, ?_⟩
      intro j hj oj hoj e he
      cases j with
      | zero =>
        simp only [List.getElem?_cons_zero, Option.some.injEq] at hoj
        subst hoj
        obtain ⟨hmem, hmsg, _⟩ := items_emission_sound g output.Items p e he
        exact fun hid => hmsg (h0 e.item hmem hid)
      | succ j =>
        simp only [List.getElem?_cons_succ] at hoj
        exact hno j (Nat.lt_of_succ_lt_succ hj) oj hoj e he

/-! ## Lemmas on the observations -/

theorem fetchCount_append (a b : List Event) :
    fetchCount (a ++ b) = fetchCount a + fetchCount b := by
  simp [fetchCount, List.countP_append]

theorem stdoutText_append (a b : List Event) :
    stdoutText (a ++ b) = stdoutText a ++ stdoutText b := by
  simp [stdoutText, List.filterMap_append]

theorem printfTexts_append (a b : List Event) :
    printfTexts (a ++ b) = printfTexts a ++ printfTexts b := by
  simp [printfTexts, List.filterMap_append]

theorem passCalls_append (a b : List Event) :
    passCalls (a ++ b) = passCalls a ++ passCalls b := by
  simp [passCalls, List.filterMap_append]

theorem jsonDocs_append (a b : List Event) :
    jsonDocs (a ++ b) = jsonDocs a ++ jsonDocs b := by
  simp [jsonDocs, List.filterMap_append]

theorem fetchEvents_obs (testID : TestID) :
    fetchCount (fetchEvents testID) = 1 ∧ stdoutText (fetchEvents testID) = [] ∧
      printfTexts (fetchEvents testID) = [] ∧ passCalls (fetchEvents testID) = [] ∧
      jsonDocs (fetchEvents testID) = [] := by
  simp [fetchEvents, fetchCount, stdoutText, printfTexts, passCalls, jsonDocs]

theorem startEvents_obs (req : DNSResolveRequest) :
    fetchCount (startEvents req) = 0 ∧ stdoutText (startEvents req) = ["\n"] ∧
      printfTexts (startEvents req) = [] ∧ passCalls (startEvents req) = [] ∧
      jsonDocs (startEvents req) = [] := by
  simp [startEvents, fetchCount, stdoutText, printfTexts, passCalls, jsonDocs]

/-- The `Test ID` line, spelled out. -/
theorem sprintf_testID (testID : TestID) :
    Sprintf "Test ID: %v\n" [.str testID] = "Test ID: " ++ testID ++ "\n" := by
  apply String.ext
  simp [Sprintf, sprintfChars, Arg.render]

theorem debugEvents_obs (debug outputJSON : Bool) (testID : TestID) :
    fetchCount (debugEvents debug outputJSON testID) = 0 ∧
      stdoutText (debugEvents debug outputJSON testID) =
        (if debug && !outputJSON then ["Test ID: " ++ testID ++ "\n"] else []) ∧
      printfTexts (debugEvents debug outputJSON testID) =
        (if debug && !outputJSON then ["Test ID: " ++ testID ++ "\n"] else []) ∧
      passCalls (debugEvents debug outputJSON testID) = [] ∧
      jsonDocs (debugEvents debug outputJSON testID) = [] := by
  unfold debugEvents
  split <;> simp [fetchCount, stdoutText, printfTexts, passCalls, jsonDocs, sprintf_testID]

theorem printf_events_obs (l : List Emission) :
    fetchCount (l.map (fun e => Event.printf e.text)) = 0 ∧
      stdoutText (l.map (fun e => Event.printf e.text)) = l.map (fun e => e.text) ∧
      printfTexts (l.map (fun e => Event.printf e.text)) = l.map (fun e => e.text) ∧
      passCalls (l.map (fun e => Event.printf e.text)) = [] ∧
      jsonDocs (l.map (fun e => Event.printf e.text)) = [] := by
  induction l with
  | nil => simp [fetchCount, stdoutText, printfTexts, passCalls, jsonDocs]
  | cons e l ih =>
    obtain ⟨h1, h2, h3, h4, h5⟩ := ih
    simp only [fetchCount, stdoutText, printfTexts, passCalls, jsonDocs] at h1 h2 h3 h4 h5 ⊢
    simp [h1, h2, h3, h4, h5]

theorem renderStep_json (output : DNSTestOutput) (p : PrintedIDs) :
    renderStep true output p = (p, []) := by
  simp [renderStep]

theorem renderStep_text (output : DNSTestOutput) (p : PrintedIDs) :
    renderStep false output p =
      ((printPartialDNSOutput resolveGetOutput output p).1,
        Event.callPrintPartial output ::
          (printPartialDNSOutput resolveGetOutput output p).2.map
            (fun e => Event.printf e.text)) := by
  simp [renderStep]

theorem renderStep_text_obs (output : DNSTestOutput) (p : PrintedIDs) :
    fetchCount (renderStep false output p).2 = 0 ∧
      stdoutText (renderStep false output p).2 =
        (printPartialDNSOutput resolveGetOutput output p).2.map (fun e => e.text) ∧
      printfTexts (renderStep false output p).2 =
        (printPartialDNSOutput resolveGetOutput output p).2.map (fun e => e.text) ∧
      passCalls (renderStep false output p).2 = [output] ∧
      jsonDocs (renderStep false output p).2 = [] := by
  rw [renderStep_text]
  obtain ⟨h1, h2, h3, h4, h5⟩ :=
    printf_events_obs (printPartialDNSOutput resolveGetOutput output p).2
  simp only [fetchCount, stdoutText, printfTexts, passCalls, jsonDocs] at h1 h2 h3 h4 h5 ⊢
  simp [h1, h2, h3, h4, h5]

/-! ## Lemmas on the polling loop -/

theorem pollTrace_nil (j : Bool) (tid : TestID) (p : PrintedIDs) :
    pollTrace j tid [] p = (p, []) := rfl

theorem pollTrace_cons (j : Bool) (tid : TestID) (o : DNSTestOutput)
    (rest : List DNSTestOutput) (p : PrintedIDs) :
    pollTrace j tid (o :: rest) p =
      ((pollTrace j tid rest (renderStep j o p).1).1,
        fetchEvents tid ++ (renderStep j o p).2 ++
          (pollTrace j tid rest (renderStep j o p).1).2) := rfl

/-- In structured-output mode the iterations only fetch. -/
theorem pollTrace_json (tid : TestID) :
    ∀ (snaps : List DNSTestOutput) (p : PrintedIDs),
      (pollTrace true tid snaps p).1 = p ∧
      fetchCount (pollTrace true tid snaps p).2 = snaps.length ∧
      stdoutText (pollTrace true tid snaps p).2 = [] ∧
      printfTexts (pollTrace true tid snaps p).2 = [] ∧
      passCalls (pollTrace true tid snaps p).2 = [] ∧
      jsonDocs (pollTrace true tid snaps p).2 = [] := by
  intro snaps
  induction snaps with
  | nil => intro p; simp [pollTrace_nil, fetchCount, stdoutText, printfTexts, passCalls, jsonDocs]
  | cons o rest ih =>
    intro p
    obtain ⟨h0, h1, h2, h3, h4, h5⟩ := ih p
    obtain ⟨f1, f2, f3, f4, f5⟩ := fetchEvents_obs tid
    rw [pollTrace_cons, renderStep_json]
    simp only [List.append_nil, fetchCount_append, stdoutText_append, printfTexts_append,
      passCalls_append, jsonDocs_append, h0, h1, h2, h3, h4, h5, f1, f2, f3, f4, f5,
      List.length_cons, List.append_nil]
    refine ⟨trivial, by omega, trivial, trivial, trivial, trivial⟩

/-- In text mode the iterations are the successive passes of
`printPartialDNSOutput` over the snapshots, one after each fetch. -/
theorem pollTrace_text (tid : TestID) :
    ∀ (snaps : List DNSTestOutput) (p : PrintedIDs),
      (pollTrace false tid snaps p).1 = (printPasses resolveGetOutput snaps p).1 ∧
      fetchCount (pollTrace false tid snaps p).2 = snaps.length ∧
      stdoutText (pollTrace false tid snaps p).2 =
        passTexts (printPasses resolveGetOutput snaps p).2 ∧
      printfTexts (pollTrace false tid snaps p).2 =
        passTexts (printPasses resolveGetOutput snaps p).2 ∧
      passCalls (pollTrace false tid snaps p).2 = snaps ∧
      jsonDocs (pollTrace false tid snaps p).2 = [] := by
  intro snaps
  induction snaps with
  | nil =>
    intro p
    simp [pollTrace_nil, passes_nil, passTexts, fetchCount, stdoutText, printfTexts, passCalls,
      jsonDocs]
  | cons o rest ih =>
    intro p
    obtain ⟨h0, h1, h2, h3, h4, h5⟩ := ih (printPartialDNSOutput resolveGetOutput o p).1
    obtain ⟨f1, f2, f3, f4, f5⟩ := fetchEvents_obs tid
    obtain ⟨r1, r2, r3, r4, r5⟩ := renderStep_text_obs o p
    have hr : (renderStep false o p).1 = (printPartialDNSOutput resolveGetOutput o p).1 := by
      rw [renderStep_text]
    rw [pollTrace_cons, passes_cons, hr]
    simp only [fetchCount_append, stdoutText_append, printfTexts_append,
      passCalls_append, jsonDocs_append, h0, h1, h2, h3, h4, h5, f1, f2, f3, f4, f5,
      r1, r2, r3, r4, r5, List.length_cons, passTexts, List.flatten_cons, List.map_append,
      List.nil_append, List.append_nil, List.singleton_append]
    refine ⟨trivial, by omega, trivial, trivial, trivial, trivial⟩

theorem pollLoop_unfinished (j : Bool) (tid : TestID) (o : DNSTestOutput)
    (rest : List (Except Error DNSTestOutput)) (p : PrintedIDs)
    (h : o.IsFinished = false) :
    pollLoop j tid (.ok o :: rest) p =
      (pollLoop j tid rest (renderStep j o p).1).map
        (fun r => (r.1, fetchEvents tid ++ (renderStep j o p).2 ++ r.2)) := by
  simp only [pollLoop, h]
  cases pollLoop j tid rest (renderStep j o p).1 <;> simp

/-- The loop runs through a prefix of unfinished snapshots. -/
theorem pollLoop_through (j : Bool) (tid : TestID) :
    ∀ (pre : List DNSTestOutput) (answers : List (Except Error DNSTestOutput))
      (p : PrintedIDs), (∀ o ∈ pre, o.IsFinished = false) →
      pollLoop j tid (pre.map Except.ok ++ answers) p =
        (pollLoop j tid answers (pollTrace j tid pre p).1).map
          (fun r => (r.1, (pollTrace j tid pre p).2 ++ r.2)) := by
  intro pre
  induction pre with
  | nil =>
    intro answers p _
    simp only [List.map_nil, List.nil_append, pollTrace_nil]
    cases pollLoop j tid answers p <;> simp
  | cons o rest ih =>
    intro answers p hall
    have ho : o.IsFinished = false := hall o (List.mem_cons_self _ _)
    have hrest : ∀ x ∈ rest, x.IsFinished = false :=
      fun x hx => hall x (List.mem_cons_of_mem _ hx)
    rw [List.map_cons, List.cons_append, pollLoop_unfinished j tid o _ p ho,
      ih answers (renderStep j o p).1 hrest, pollTrace_cons]
    cases pollLoop j tid answers (pollTrace j tid rest (renderStep j o p).1).1 <;>
      simp [List.append_assoc]

theorem pollLoop_error (j : Bool) (tid : TestID) (err : Error)
    (rest : List (Except Error DNSTestOutput)) (p : PrintedIDs) :
    pollLoop j tid (.error err :: rest) p = some (.error err, fetchEvents tid) := rfl

theorem pollLoop_finished (j : Bool) (tid : TestID) (last : DNSTestOutput)
    (rest : List (Except Error DNSTestOutput)) (p : PrintedIDs)
    (h : last.IsFinished = true) :
    pollLoop j tid (.ok last :: rest) p =
      some (.ok last, fetchEvents tid ++ (renderStep j last p).2) := by
  simp [pollLoop, h]

/-- A loop that ends on a snapshot has fetched a run of unfinished snapshots
and then that snapshot, which is finished. -/
theorem pollLoop_ok_inv (j : Bool) (tid : TestID) (last : DNSTestOutput) :
    ∀ (answers : List (Except Error DNSTestOutput)) (p : PrintedIDs) (tr : List Event),
      pollLoop j tid answers p = some (.ok last, tr) →
      ∃ (pre : List DNSTestOutput) (rest : List (Except Error DNSTestOutput)),
        answers = pre.map Except.ok ++ .ok last :: rest ∧
        (∀ o ∈ pre, o.IsFinished = false) ∧ last.IsFinished = true := by
  intro answers
  induction answers with
  | nil => intro p tr h; simp [pollLoop] at h
  | cons a rest ih =>
    intro p tr h
    cases a with
    | error err => simp [pollLoop] at h
    | ok o =>
      by_cases ho : o.IsFinished = true
      · rw [pollLoop_finished j tid o rest p ho] at h
        simp only [Option.some.injEq, Prod.mk.injEq, Except.ok.injEq] at h
        obtain ⟨h1, _⟩ := h
        subst h1
        exact ⟨[], rest, by simp, by simp, ho⟩
      · have ho' : o.IsFinished = false := by simpa using ho
        simp only [pollLoop, ho'] at h
        cases hrec : pollLoop j tid rest (renderStep j o p).1 with
        | none => simp [hrec] at h
        | some r =>
          obtain ⟨r1, r2⟩ := r
          simp only [hrec, Bool.false_eq_true, if_false, Option.some.injEq,
            Prod.mk.injEq] at h
          obtain ⟨h1, _⟩ := h
          subst h1
          obtain ⟨pre, rest', e, hpre, hl⟩ := ih _ _ hrec
          refine ⟨o :: pre, rest', by simp [e], ?_, hl⟩
          intro x hx
          rcases List.mem_cons.mp hx with rfl | hx
          · exact ho'
          · exact hpre x hx

theorem pollTrace_snoc (j : Bool) (tid : TestID) (last : DNSTestOutput) :
    ∀ (pre : List DNSTestOutput) (p : PrintedIDs),
      (pollTrace j tid (pre ++ [last]) p).2 =
        (pollTrace j tid pre p).2 ++
          (fetchEvents tid ++ (renderStep j last (pollTrace j tid pre p).1).2) := by
  intro pre
  induction pre with
  | nil => intro p; simp [pollTrace_nil, pollTrace_cons]
  | cons o rest ih =>
    intro p
    rw [List.cons_append, pollTrace_cons, pollTrace_cons, ih]
    simp [List.append_assoc]

/-- A run whose fetches give unfinished snapshots and then a finished one. -/
theorem run_of_finished (debug outputJSON : Bool) (c : Client)
    (target queryType dnsServer fromLoc : String) (nodeIDs : List Int) (limit : Int)
    (tid : TestID) (pre : List DNSTestOutput) (last : DNSTestOutput)
    (rest : List (Except Error DNSTestOutput))
    (hsub : c.DNSResolve ⟨target, queryType, dnsServer, fromLoc, nodeIDs, limit⟩ = .ok tid)
    (hfetch : c.DNSResolveOutput tid = pre.map Except.ok ++ .ok last :: rest)
    (hpre : ∀ o ∈ pre, o.IsFinished = false) (hlast : last.IsFinished = true) :
    runDNSResolve debug outputJSON c target queryType dnsServer fromLoc nodeIDs limit =
      some (none,
        startEvents ⟨target, queryType, dnsServer, fromLoc, nodeIDs, limit⟩ ++
          debugEvents debug outputJSON tid ++
          ((pollTrace outputJSON tid pre emptyIDs).2 ++
            (fetchEvents tid ++
              (renderStep outputJSON last (pollTrace outputJSON tid pre emptyIDs).1).2)) ++
          (if outputJSON then [Event.printOutputJSON last] else [])) := by
  simp only [runDNSResolve, hsub, hfetch]
  rw [pollLoop_through outputJSON tid pre _ emptyIDs hpre, pollLoop_finished _ _ _ _ _ hlast]
  rfl

/-- A run whose fetches give unfinished snapshots and then an error. -/
theorem run_of_poll_error (debug outputJSON : Bool) (c : Client)
    (target queryType dnsServer fromLoc : String) (nodeIDs : List Int) (limit : Int)
    (tid : TestID) (pre : List DNSTestOutput) (err : Error)
    (rest : List (Except Error DNSTestOutput))
    (hsub : c.DNSResolve ⟨target, queryType, dnsServer, fromLoc, nodeIDs, limit⟩ = .ok tid)
    (hfetch : c.DNSResolveOutput tid = pre.map Except.ok ++ .error err :: rest)
    (hpre : ∀ o ∈ pre, o.IsFinished = false) :
    runDNSResolve debug outputJSON c target queryType dnsServer fromLoc nodeIDs limit =
      some (some err,
        startEvents ⟨target, queryType, dnsServer, fromLoc, nodeIDs, limit⟩ ++
          debugEvents debug outputJSON tid ++
          ((pollTrace outputJSON tid pre emptyIDs).2 ++ fetchEvents tid)) := by
  simp only [runDNSResolve, hsub, hfetch]
  rw [pollLoop_through outputJSON tid pre _ emptyIDs hpre, pollLoop_error]
  rfl

/-- A run that returns `nil` submitted with success and fetched unfinished
snapshots and then a finished one. -/
theorem run_ok_inv (debug outputJSON : Bool) (c : Client)
    (target queryType dnsServer fromLoc : String) (nodeIDs : List Int) (limit : Int)
    (tr : List Event)
    (h : runDNSResolve debug outputJSON c target queryType dnsServer fromLoc nodeIDs limit =
      some (none, tr)) :
    ∃ (tid : TestID) (pre : List DNSTestOutput) (last : DNSTestOutput)
      (rest : List (Except Error DNSTestOutput)),
      c.DNSResolve ⟨target, queryType, dnsServer, fromLoc, nodeIDs, limit⟩ = .ok tid ∧
      c.DNSResolveOutput tid = pre.map Except.ok ++ .ok last :: rest ∧
      (∀ o ∈ pre, o.IsFinished = false) ∧ last.IsFinished = true := by
  unfold runDNSResolve at h
  cases hsub : c.DNSResolve ⟨target, queryType, dnsServer, fromLoc, nodeIDs, limit⟩ with
  | error err => simp [hsub] at h
  | ok tid =>
    simp only [hsub] at h
    cases hloop : pollLoop outputJSON tid (c.DNSResolveOutput tid) emptyIDs with
    | none => simp [hloop] at h
    | some r =>
      obtain ⟨r1, r2⟩ := r
      cases r1 with
      | error err => simp [hloop] at h
      | ok last =>
        obtain ⟨pre, rest, e, hpre, hl⟩ := pollLoop_ok_inv _ _ _ _ _ _ hloop
        exact ⟨tid, pre, last, rest, rfl, e, hpre, hl⟩

/-! ## The properties of the protocol -/

/-- C1, at-most-once emission: over any sequence of snapshots passed one after
another to `printPartialDNSOutput` with one map, empty at the start, the number
of `printf` calls made for items carrying a given ID is at most 1. Nothing is
assumed of the snapshots. -/
theorem at_most_once_emission (getOutput : DNSTestResult → String)
    (snaps : List DNSTestOutput) (x : String) :
    ((printPasses getOutput snaps emptyIDs).2.flatten.filter
      (fun e => decide (e.item.ID = x))).length ≤ 1 := by
  rw [← List.countP_eq_length_filter]
  exact (passes_count getOutput x snaps emptyIDs).1

/-- C2, emission at the first ready snapshot: if snapshot `k` is the first of
the sequence holding an item with ID `x` and a message other than `NO DATA`,
the pass over snapshot `k` makes a `printf` call for `x` and no earlier pass
does. -/
theorem emitted_at_first_ready_snapshot (getOutput : DNSTestResult → String)
    (snaps : List DNSTestOutput) (x : String) (k : Nat) (s : DNSTestOutput)
    (hk : snaps[k]? = some s)
    (hready : ∃ item ∈ s.Items, item.ID = x ∧ item.Result.Message ≠ "NO DATA")
    (hfirst : ∀ j, j < k → ∀ sj, snaps[j]? = some sj →
      ∀ item ∈ sj.Items, item.ID = x → item.Result.Message = "NO DATA") :
    ∃ out, (printPasses getOutput snaps emptyIDs).2[k]? = some out ∧
      (∃ e ∈ out, e.item.ID = x) ∧
      ∀ j, j < k → ∀ oj, (printPasses getOutput snaps emptyIDs).2[j]? = some oj →
        ∀ e ∈ oj, e.item.ID ≠ x :=
  passes_first_ready getOutput x snaps emptyIDs k s rfl hk hready hfirst

/-- C3, non-emission under `NO DATA`: a pass makes no `printf` call for an item
whose message is `NO DATA`; when every item with ID `x` of the snapshot reads
`NO DATA` and `x` is unmarked before the pass, no call is made for `x` and `x`
is unmarked after it; scenario A on the empty map prints nothing and leaves the
map empty. -/
theorem noData_not_emitted (getOutput : DNSTestResult → String) :
    (∀ (output : DNSTestOutput) (p : PrintedIDs),
      ∀ e ∈ (printPartialDNSOutput getOutput output p).2,
        e.item.Result.Message ≠ "NO DATA") ∧
    (∀ (output : DNSTestOutput) (p : PrintedIDs) (x : String),
      (∀ item ∈ output.Items, item.ID = x → item.Result.Message = "NO DATA") →
      p x = false →
      (printPartialDNSOutput getOutput output p).1 x = false ∧
        ∀ e ∈ (printPartialDNSOutput getOutput output p).2, e.item.ID ≠ x) ∧
    (∀ (n : Node) (lines : List String) (finished : Bool),
      printPartialDNSOutput getOutput ⟨[⟨"1", ⟨n, "NO DATA", lines⟩⟩], finished⟩ emptyIDs =
        (emptyIDs, [])) := by
  refine ⟨?_, ?_, ?_⟩
  · intro output p e he
    exact (items_emission_sound getOutput output.Items p e he).2.1
  · intro output p x hall hp
    refine ⟨items_noData_unmarked getOutput x output.Items p hall hp, ?_⟩
    intro e he hid
    obtain ⟨hmem, hmsg, _⟩ := items_emission_sound getOutput output.Items p e he
    exact hmsg (hall e.item hmem hid)
  · intro n lines finished
    simp [printPartialDNSOutput, items_cons, items_nil, printPartialDNSOutputItem]

/-- C4, sentinel substitution: an item with an empty message and an unmarked ID
is printed once, as `Node<id>, AS<asNumber>, <city>, <countryName>`, a newline,
the body, a newline; the body is the raw output lines joined with newlines,
unless that text is `-2`, in which case it is the time-out sentence; the body
is never `-2`. Every call of a pass for such an item has that text. -/
theorem sentinel_substitution (item : DNSTestItem) (hm : item.Result.Message = "") :
    ∃ body : String,
      body =
        (if String.intercalate "\n" item.Result.rawOutputLines = "-2" then
          "The command timed-out. It either took too long to execute or we could not connect to your target at all."
        else String.intercalate "\n" item.Result.rawOutputLines) ∧
      body ≠ "-2" ∧
      (∀ p : PrintedIDs, p item.ID = false →
        printPartialDNSOutputItem resolveGetOutput p item =
          (markPrinted p item.ID,
            [⟨item, "Node" ++ toString item.Result.Node.ID ++ ", AS" ++
              toString item.Result.Node.AsNumber ++ ", " ++ item.Result.Node.City ++ ", " ++
              item.Result.Node.Country.Name ++ "\n" ++ body ++ "\n"⟩])) ∧
      (∀ (output : DNSTestOutput) (p : PrintedIDs),
        ∀ e ∈ (printPartialDNSOutput resolveGetOutput output p).2, e.item = item →
          e.text = "Node" ++ toString item.Result.Node.ID ++ ", AS" ++
            toString item.Result.Node.AsNumber ++ ", " ++ item.Result.Node.City ++ ", " ++
            item.Result.Node.Country.Name ++ "\n" ++ body ++ "\n") := by
  refine ⟨_, rfl, ?_, ?_, ?_⟩
  · split
    · decide
    · assumption
  · intro p hp
    rw [item_of_output resolveGetOutput p item hp hm, printfNode_eq]
    rfl
  · intro output p e he hitem
    have h := items_emission_text resolveGetOutput output.Items p e he
    rw [hitem, if_pos hm, printfNode_eq] at h
    exact h

/-- C6, status rendering is verbatim: an item with a message that is neither
empty nor `NO DATA`, and an unmarked ID, is printed once, as
`Node<id>, AS<asNumber>, <city>, <countryName>`, a newline, the message
unchanged, a newline, whatever `getOutput` is; every call of a pass for such an
item has that text; an item of the same node printed as output has the same
header. -/
theorem status_rendered_verbatim (getOutput : DNSTestResult → String) (item : DNSTestItem)
    (hm : item.Result.Message ≠ "") (hn : item.Result.Message ≠ "NO DATA") :
    (∀ p : PrintedIDs, p item.ID = false →
      printPartialDNSOutputItem getOutput p item =
        (markPrinted p item.ID,
          [⟨item, "Node" ++ toString item.Result.Node.ID ++ ", AS" ++
            toString item.Result.Node.AsNumber ++ ", " ++ item.Result.Node.City ++ ", " ++
            item.Result.Node.Country.Name ++ "\n" ++ item.Result.Message ++ "\n"⟩])) ∧
    (∀ (output : DNSTestOutput) (p : PrintedIDs),
      ∀ e ∈ (printPartialDNSOutput getOutput output p).2, e.item = item →
        e.text = "Node" ++ toString item.Result.Node.ID ++ ", AS" ++
          toString item.Result.Node.AsNumber ++ ", " ++ item.Result.Node.City ++ ", " ++
          item.Result.Node.Country.Name ++ "\n" ++ item.Result.Message ++ "\n") ∧
    (∀ (other : DNSTestItem) (p : PrintedIDs), other.Result.Node = item.Result.Node →
      other.Result.Message = "" → p other.ID = false →
      ∃ body : String, (printPartialDNSOutputItem getOutput p other).2 =
        [⟨other, "Node" ++ toString item.Result.Node.ID ++ ", AS" ++
          toString item.Result.Node.AsNumber ++ ", " ++ item.Result.Node.City ++ ", " ++
          item.Result.Node.Country.Name ++ "\n" ++ body ++ "\n"⟩]) := by
  refine ⟨?_, ?_, ?_⟩
  · intro p hp
    rw [item_of_status getOutput p item hp hm hn, printfNode_eq]
  · intro output p e he hitem
    have h := items_emission_text getOutput output.Items p e he
    rw [hitem, if_neg hm, printfNode_eq] at h
    exact h
  · intro other p hnode hmsg hp
    rw [item_of_output getOutput p other hp hmsg, printfNode_eq, hnode]
    exact ⟨_, rfl⟩

/-- C10, one pass is an ordered filter: on a snapshot whose item IDs are
pairwise distinct, the items `printPartialDNSOutput` calls `printf` for are, in
snapshot order, the items whose ID is unmarked before the pass and whose
message is not `NO DATA`; the map after the pass marks the IDs marked before
and the IDs of those items, no other. Scenario B on the empty map prints item
`1` as output, then item `2` as status, and marks both. -/
theorem pass_is_ordered_filter (getOutput : DNSTestResult → String) :
    (∀ (output : DNSTestOutput) (p : PrintedIDs),
      (output.Items.map (fun it => it.ID)).Nodup →
      (printPartialDNSOutput getOutput output p).2.map (fun e => e.item) =
          output.Items.filter
            (fun it => !p it.ID && decide (it.Result.Message ≠ "NO DATA")) ∧
        ∀ x, (printPartialDNSOutput getOutput output p).1 x = true ↔
          (p x = true ∨
            ∃ it ∈ output.Items.filter
              (fun it => !p it.ID && decide (it.Result.Message ≠ "NO DATA")), it.ID = x)) ∧
    (∀ (n1 n2 : Node) (l1 l2 : List String) (finished : Bool),
      printPartialDNSOutput getOutput
          ⟨[⟨"1", ⟨n1, "", l1⟩⟩, ⟨"2", ⟨n2, "Node unreachable", l2⟩⟩], finished⟩ emptyIDs =
        (markPrinted (markPrinted emptyIDs "1") "2",
          [⟨⟨"1", ⟨n1, "", l1⟩⟩, printfNode n1
              (if getOutput ⟨n1, "", l1⟩ = "-2" then timeoutSentence
                else getOutput ⟨n1, "", l1⟩)⟩,
            ⟨⟨"2", ⟨n2, "Node unreachable", l2⟩⟩, printfNode n2 "Node unreachable"⟩])) := by
  refine ⟨?_, ?_⟩
  · intro output p hnd
    have hf := items_eq_filter getOutput output.Items p hnd
    refine ⟨hf, fun x => ?_⟩
    rw [printPartialDNSOutput, items_marked_iff getOutput x output.Items p, ← hf]
    simp only [List.mem_map]
    constructor
    · rintro (h | ⟨e, he, hx⟩)
      · exact Or.inl h
      · exact Or.inr ⟨e.item, ⟨e, he, rfl⟩, hx⟩
    · rintro (h | ⟨it, ⟨e, he, rfl⟩, hx⟩)
      · exact Or.inl h
      · exact Or.inr ⟨e, he, hx⟩
  · intro n1 n2 l1 l2 finished
    simp [printPartialDNSOutput, items_cons, items_nil, printPartialDNSOutputItem, emptyIDs,
      markPrinted]

/-- C9, a submission error is fatal before any polling: when
`Run.DNSResolve` fails, `runDNSResolve` returns that error after the blank
line, the spinner and the submit call alone: no fetch, no call of
`printPartialDNSOutput`, no `Printf` (so no item and no `Test ID` line), no
structured document. -/
theorem submission_error_fatal (debug outputJSON : Bool) (c : Client)
    (target queryType dnsServer fromLoc : String) (nodeIDs : List Int) (limit : Int)
    (err : Error)
    (hsub : c.DNSResolve ⟨target, queryType, dnsServer, fromLoc, nodeIDs, limit⟩ =
      .error err) :
    ∃ tr, runDNSResolve debug outputJSON c target queryType dnsServer fromLoc nodeIDs limit =
        some (some err, tr) ∧
      tr = [Event.println "", Event.spinnerStart,
        Event.submit ⟨target, queryType, dnsServer, fromLoc, nodeIDs, limit⟩,
        Event.spinnerStop] ∧
      fetchCount tr = 0 ∧ passCalls tr = [] ∧ printfTexts tr = [] ∧ jsonDocs tr = [] := by
  refine ⟨_, by simp only [runDNSResolve, hsub], rfl, ?_, ?_, ?_, ?_⟩ <;>
    simp [fetchCount, passCalls, printfTexts, jsonDocs]

/-- C5, termination of polling: when the submit call succeeds and the fetches
answer `n - 1` unfinished snapshots and then a finished one, `runDNSResolve`
returns `nil` after exactly `n` fetches; in text mode the snapshots passed to
`printPartialDNSOutput` are exactly those `n`, the finished one last, and the
pass over it follows the last fetch, with no fetch after it. -/
theorem polling_stops_at_finished (debug outputJSON : Bool) (c : Client)
    (target queryType dnsServer fromLoc : String) (nodeIDs : List Int) (limit : Int)
    (tid : TestID) (pre : List DNSTestOutput) (last : DNSTestOutput)
    (rest : List (Except Error DNSTestOutput))
    (hsub : c.DNSResolve ⟨target, queryType, dnsServer, fromLoc, nodeIDs, limit⟩ = .ok tid)
    (hfetch : c.DNSResolveOutput tid = pre.map Except.ok ++ .ok last :: rest)
    (hpre : ∀ o ∈ pre, o.IsFinished = false) (hlast : last.IsFinished = true) :
    ∃ tr, runDNSResolve debug outputJSON c target queryType dnsServer fromLoc nodeIDs limit =
        some (none, tr) ∧
      fetchCount tr = pre.length + 1 ∧
      (outputJSON = false →
        passCalls tr = pre ++ [last] ∧
        ∃ init tail, tr = init ++ Event.fetch tid :: Event.spinnerStop ::
            Event.callPrintPartial last :: tail ∧
          fetchCount init = pre.length ∧ fetchCount tail = 0 ∧ passCalls tail = []) := by
  refine ⟨_, run_of_finished debug outputJSON c target queryType dnsServer fromLoc nodeIDs
    limit tid pre last rest hsub hfetch hpre hlast, ?_, ?_⟩
  · obtain ⟨s1, -⟩ := startEvents_obs ⟨target, queryType, dnsServer, fromLoc, nodeIDs, limit⟩
    obtain ⟨d1, -⟩ := debugEvents_obs debug outputJSON tid
    obtain ⟨f1, -⟩ := fetchEvents_obs tid
    cases outputJSON with
    | true =>
      obtain ⟨-, t1, -⟩ := pollTrace_json tid pre emptyIDs
      simp only [fetchCount_append, s1, d1, f1, t1, renderStep_json]
      simp [fetchCount]
    | false =>
      obtain ⟨-, t1, -⟩ := pollTrace_text tid pre emptyIDs
      obtain ⟨r1, -⟩ := renderStep_text_obs last (pollTrace false tid pre emptyIDs).1
      simp only [fetchCount_append, s1, d1, f1, t1, r1]
      simp [fetchCount]
  · intro hj
    subst hj
    obtain ⟨s1, -, -, s4, -⟩ :=
      startEvents_obs ⟨target, queryType, dnsServer, fromLoc, nodeIDs, limit⟩
    obtain ⟨d1, -, -, d4, -⟩ := debugEvents_obs debug false tid
    obtain ⟨f1, -, -, f4, -⟩ := fetchEvents_obs tid
    obtain ⟨-, t1, -, -, t4, -⟩ := pollTrace_text tid pre emptyIDs
    obtain ⟨r1, -, -, r4, -⟩ := renderStep_text_obs last (pollTrace false tid pre emptyIDs).1
    obtain ⟨p1, -, -, p4, -⟩ := printf_events_obs
      (printPartialDNSOutput resolveGetOutput last (pollTrace false tid pre emptyIDs).1).2
    refine ⟨?_, startEvents ⟨target, queryType, dnsServer, fromLoc, nodeIDs, limit⟩ ++
      debugEvents debug false tid ++ (pollTrace false tid pre emptyIDs).2 ++
      [Event.spinnerStart, Event.sleep 500],
      (printPartialDNSOutput resolveGetOutput last (pollTrace false tid pre emptyIDs).1).2.map
        (fun e => Event.printf e.text), ?_, ?_, p1, p4⟩
    · simp only [passCalls_append, s4, d4, f4, t4, r4]
      simp [passCalls]
    · rw [renderStep_text]
      simp [fetchEvents, List.append_assoc]
    · simp only [fetchCount_append, s1, d1, t1]
      simp [fetchCount]

/-- C8, one rendering mode per run: a run of `runDNSResolve` that returns `nil`
has fetched unfinished snapshots and then a finished one. With `outputJSON`
set it never calls `printPartialDNSOutput`, makes no `Printf` call, and emits
one structured document, as its last event, holding that finished snapshot.
With `outputJSON` unset every fetched snapshot is passed to
`printPartialDNSOutput`, in order, the `Printf` texts are the `Test ID` line
under `debug` followed by the calls of those passes, and no structured document
is emitted. -/
theorem one_rendering_mode (debug outputJSON : Bool) (c : Client)
    (target queryType dnsServer fromLoc : String) (nodeIDs : List Int) (limit : Int)
    (tr : List Event)
    (h : runDNSResolve debug outputJSON c target queryType dnsServer fromLoc nodeIDs limit =
      some (none, tr)) :
    ∃ (tid : TestID) (pre : List DNSTestOutput) (last : DNSTestOutput)
      (rest : List (Except Error DNSTestOutput)),
      c.DNSResolve ⟨target, queryType, dnsServer, fromLoc, nodeIDs, limit⟩ = .ok tid ∧
      c.DNSResolveOutput tid = pre.map Except.ok ++ .ok last :: rest ∧
      last.IsFinished = true ∧
      fetchCount tr = pre.length + 1 ∧
      (outputJSON = true →
        passCalls tr = [] ∧ printfTexts tr = [] ∧ jsonDocs tr = [last] ∧
        ∃ init, tr = init ++ [Event.printOutputJSON last] ∧ fetchCount init = pre.length + 1) ∧
      (outputJSON = false →
        passCalls tr = pre ++ [last] ∧ jsonDocs tr = [] ∧
        printfTexts tr =
          (if debug then ["Test ID: " ++ tid ++ "\n"] else []) ++
            passTexts (printPasses resolveGetOutput (pre ++ [last]) emptyIDs).2) := by
  obtain ⟨tid, pre, last, rest, hsub, hfetch, hpre, hlast⟩ :=
    run_ok_inv debug outputJSON c target queryType dnsServer fromLoc nodeIDs limit tr h
  have hrun := run_of_finished debug outputJSON c target queryType dnsServer fromLoc nodeIDs
    limit tid pre last rest hsub hfetch hpre hlast
  rw [h, ← pollTrace_snoc] at hrun
  simp only [Option.some.injEq, Prod.mk.injEq, true_and] at hrun
  obtain ⟨s1, -, s3, s4, s5⟩ :=
    startEvents_obs ⟨target, queryType, dnsServer, fromLoc, nodeIDs, limit⟩
  obtain ⟨d1, -, d3, d4, d5⟩ := debugEvents_obs debug outputJSON tid
  refine ⟨tid, pre, last, rest, hsub, hfetch, hlast, ?_, ?_, ?_⟩
  · cases outputJSON with
    | true =>
      obtain ⟨-, t1, -⟩ := pollTrace_json tid (pre ++ [last]) emptyIDs
      rw [hrun]
      simp only [fetchCount_append, s1, d1, t1]
      simp [fetchCount]
    | false =>
      obtain ⟨-, t1, -⟩ := pollTrace_text tid (pre ++ [last]) emptyIDs
      rw [hrun]
      simp only [fetchCount_append, s1, d1, t1]
      simp [fetchCount]
  · intro hj
    subst hj
    obtain ⟨-, t1, -, t3, t4, t5⟩ := pollTrace_json tid (pre ++ [last]) emptyIDs
    rw [hrun]
    refine ⟨?_, ?_, ?_, _, rfl, ?_⟩
    · simp only [passCalls_append, s4, d4, t4]
      simp [passCalls]
    · simp only [printfTexts_append, s3, d3, t3]
      simp [printfTexts]
    · simp only [jsonDocs_append, s5, d5, t5]
      simp [jsonDocs]
    · simp only [fetchCount_append, s1, d1, t1]
      simp
  · intro hj
    subst hj
    obtain ⟨-, -, -, t3, t4, t5⟩ := pollTrace_text tid (pre ++ [last]) emptyIDs
    rw [hrun]
    refine ⟨?_, ?_, ?_⟩
    · simp only [passCalls_append, s4, d4, t4]
      simp [passCalls]
    · simp only [jsonDocs_append, s5, d5, t5]
      simp [jsonDocs]
    · simp only [printfTexts_append, s3, d3, t3]
      simp [printfTexts]

/-- C7 as amended, a poll error is fatal and leaves earlier output untouched:
when the submit call succeeds, the first `k - 1` fetches answer unfinished
snapshots and fetch `k` fails, `runDNSResolve` returns that error after exactly
`k` fetches and emits no structured document; the text it has written is the
blank line, the `Test ID` line under `debug` in text mode, and then, in text
mode, exactly what the passes of `printPartialDNSOutput` over the first `k - 1`
snapshots printed; with `outputJSON` set no pass runs and nothing else is
written. -/
theorem poll_error_fatal (debug outputJSON : Bool) (c : Client)
    (target queryType dnsServer fromLoc : String) (nodeIDs : List Int) (limit : Int)
    (tid : TestID) (pre : List DNSTestOutput) (err : Error)
    (rest : List (Except Error DNSTestOutput))
    (hsub : c.DNSResolve ⟨target, queryType, dnsServer, fromLoc, nodeIDs, limit⟩ = .ok tid)
    (hfetch : c.DNSResolveOutput tid = pre.map Except.ok ++ .error err :: rest)
    (hpre : ∀ o ∈ pre, o.IsFinished = false) :
    ∃ tr, runDNSResolve debug outputJSON c target queryType dnsServer fromLoc nodeIDs limit =
        some (some err, tr) ∧
      fetchCount tr = pre.length + 1 ∧
      jsonDocs tr = [] ∧
      passCalls tr = (if outputJSON then [] else pre) ∧
      stdoutText tr =
        ["\n"] ++ (if debug && !outputJSON then ["Test ID: " ++ tid ++ "\n"] else []) ++
          (if outputJSON then []
            else passTexts (printPasses resolveGetOutput pre emptyIDs).2) := by
  refine ⟨_, run_of_poll_error debug outputJSON c target queryType dnsServer fromLoc nodeIDs
    limit tid pre err rest hsub hfetch hpre, ?_⟩
  obtain ⟨s1, s2, -, s4, s5⟩ :=
    startEvents_obs ⟨target, queryType, dnsServer, fromLoc, nodeIDs, limit⟩
  obtain ⟨d1, d2, -, d4, d5⟩ := debugEvents_obs debug outputJSON tid
  obtain ⟨f1, f2, -, f4, f5⟩ := fetchEvents_obs tid
  cases outputJSON with
  | true =>
    obtain ⟨-, t1, t2, -, t4, t5⟩ := pollTrace_json tid pre emptyIDs
    simp only [fetchCount_append, jsonDocs_append, passCalls_append, stdoutText_append,
      s1, s2, s4, s5, d1, d2, d4, d5, f1, f2, f4, f5, t1, t2, t4, t5]
    simp
  | false =>
    obtain ⟨-, t1, t2, -, t4, t5⟩ := pollTrace_text tid pre emptyIDs
    simp only [fetchCount_append, jsonDocs_append, passCalls_append, stdoutText_append,
      s1, s2, s4, s5, d1, d2, d4, d5, f1, f2, f4, f5, t1, t2, t4, t5]
    simp

/-! ## Instances on the sample data -/

theorem emitted_at_first_ready_snapshot_witness :
    [snapshotA, snapshotB][1]? = some snapshotB ∧
    (∃ out, (printPasses resolveGetOutput [snapshotA, snapshotB] emptyIDs).2[1]? = some out ∧
      (∃ e ∈ out, e.item.ID = "1") ∧
      ∀ j, j < 1 → ∀ oj,
        (printPasses resolveGetOutput [snapshotA, snapshotB] emptyIDs).2[j]? = some oj →
          ∀ e ∈ oj, e.item.ID ≠ "1") :=
  ⟨rfl, emitted_at_first_ready_snapshot resolveGetOutput [snapshotA, snapshotB] "1" 1 snapshotB
    rfl ⟨⟨"1", ⟨sampleNode, "", ["93.184.216.34"]⟩⟩, by simp [snapshotB], rfl, by decide⟩
    (by
      intro j hj sj hsj item hitem _
      have hj0 : j = 0 := by omega
      subst hj0
      simp only [List.getElem?_cons_zero, Option.some.injEq] at hsj
      subst hsj
      simp only [snapshotA, List.mem_singleton] at hitem
      subst hitem
      rfl)⟩

theorem noData_not_emitted_witness :
    (∀ item ∈ snapshotA.Items, item.ID = "1" → item.Result.Message = "NO DATA") ∧
    emptyIDs "1" = false ∧
    (printPartialDNSOutput resolveGetOutput snapshotA emptyIDs).1 "1" = false ∧
    ∀ e ∈ (printPartialDNSOutput resolveGetOutput snapshotA emptyIDs).2, e.item.ID ≠ "1" :=
  ⟨by simp [snapshotA], rfl,
    (noData_not_emitted resolveGetOutput).2.1 snapshotA emptyIDs "1" (by simp [snapshotA]) rfl⟩

theorem sentinel_substitution_witness :
    timedOutItem.Result.Message = "" ∧
    ∃ body : String,
      body =
        (if String.intercalate "\n" timedOutItem.Result.rawOutputLines = "-2" then
          "The command timed-out. It either took too long to execute or we could not connect to your target at all."
        else String.intercalate "\n" timedOutItem.Result.rawOutputLines) ∧
      body ≠ "-2" ∧
      (∀ p : PrintedIDs, p timedOutItem.ID = false →
        printPartialDNSOutputItem resolveGetOutput p timedOutItem =
          (markPrinted p timedOutItem.ID,
            [⟨timedOutItem, "Node" ++ toString timedOutItem.Result.Node.ID ++ ", AS" ++
              toString timedOutItem.Result.Node.AsNumber ++ ", " ++ timedOutItem.Result.Node.City ++ ", " ++
              timedOutItem.Result.Node.Country.Name ++ "\n" ++ body ++ "\n"⟩])) ∧
      (∀ (output : DNSTestOutput) (p : PrintedIDs),
        ∀ e ∈ (printPartialDNSOutput resolveGetOutput output p).2, e.item = timedOutItem →
          e.text = "Node" ++ toString timedOutItem.Result.Node.ID ++ ", AS" ++
              toString timedOutItem.Result.Node.AsNumber ++ ", " ++ timedOutItem.Result.Node.City ++ ", " ++
              timedOutItem.Result.Node.Country.Name ++ "\n" ++ body ++ "\n") :=
  ⟨rfl, sentinel_substitution timedOutItem rfl⟩

theorem status_rendered_verbatim_witness :
    statusItem.Result.Message ≠ "" ∧ statusItem.Result.Message ≠ "NO DATA" ∧
    printPartialDNSOutputItem resolveGetOutput emptyIDs statusItem =
      (markPrinted emptyIDs "5", [⟨statusItem, "Node12, AS3320, Berlin, Germany\n-2\n"⟩]) :=
  ⟨by decide, by decide,
    ((status_rendered_verbatim resolveGetOutput statusItem (by decide) (by decide)).1
      emptyIDs rfl).trans (by rw [Prod.mk.injEq]; exact ⟨rfl, by decide⟩)⟩

theorem pass_is_ordered_filter_witness :
    (snapshotB.Items.map (fun it => it.ID)).Nodup ∧
    (printPartialDNSOutput resolveGetOutput snapshotB emptyIDs).2.map (fun e => e.item) =
      snapshotB.Items.filter
        (fun it => !emptyIDs it.ID && decide (it.Result.Message ≠ "NO DATA")) :=
  ⟨by decide,
    ((pass_is_ordered_filter resolveGetOutput).1 snapshotB emptyIDs (by decide)).1⟩

theorem submission_error_fatal_witness :
    rejectingClient.DNSResolve sampleRequest = .error "submit failed" ∧
    ∃ tr, runDNSResolve true false rejectingClient "example.com" "A" "8.8.8.8" "" [] 1 =
        some (some "submit failed", tr) ∧
      tr = [Event.println "", Event.spinnerStart, Event.submit sampleRequest,
        Event.spinnerStop] ∧
      fetchCount tr = 0 ∧ passCalls tr = [] ∧ printfTexts tr = [] ∧ jsonDocs tr = [] :=
  ⟨rfl, submission_error_fatal true false rejectingClient "example.com" "A" "8.8.8.8" "" [] 1
    "submit failed" rfl⟩

theorem polling_stops_at_finished_witness :
    sampleClient.DNSResolve sampleRequest = .ok "T1" ∧
    sampleClient.DNSResolveOutput "T1" =
      [snapshotA, snapshotB].map Except.ok ++ [.ok snapshotC] ∧
    (∀ o ∈ [snapshotA, snapshotB], o.IsFinished = false) ∧ snapshotC.IsFinished = true ∧
    ∃ tr, runDNSResolve true false sampleClient "example.com" "A" "8.8.8.8" "" [] 1 =
        some (none, tr) ∧
      fetchCount tr = [snapshotA, snapshotB].length + 1 ∧
      (false = false →
        passCalls tr = [snapshotA, snapshotB] ++ [snapshotC] ∧
        ∃ init tail, tr = init ++ Event.fetch "T1" :: Event.spinnerStop ::
            Event.callPrintPartial snapshotC :: tail ∧
          fetchCount init = [snapshotA, snapshotB].length ∧ fetchCount tail = 0 ∧
          passCalls tail = []) :=
  ⟨rfl, rfl, by decide, rfl,
    polling_stops_at_finished true false sampleClient "example.com" "A" "8.8.8.8" "" [] 1
      "T1" [snapshotA, snapshotB] snapshotC [] rfl rfl (by decide) rfl⟩

theorem one_rendering_mode_witness :
    runDNSResolve false true sampleClient "example.com" "A" "8.8.8.8" "" [] 1 =
      some (none, sampleJSONTrace) ∧
    ∃ (tid : TestID) (pre : List DNSTestOutput) (last : DNSTestOutput)
      (rest : List (Except Error DNSTestOutput)),
      sampleClient.DNSResolve sampleRequest = .ok tid ∧
      sampleClient.DNSResolveOutput tid = pre.map Except.ok ++ .ok last :: rest ∧
      last.IsFinished = true ∧
      fetchCount sampleJSONTrace = pre.length + 1 ∧
      (true = true →
        passCalls sampleJSONTrace = [] ∧ printfTexts sampleJSONTrace = [] ∧
        jsonDocs sampleJSONTrace = [last] ∧
        ∃ init, sampleJSONTrace = init ++ [Event.printOutputJSON last] ∧
          fetchCount init = pre.length + 1) ∧
      (true = false →
        passCalls sampleJSONTrace = pre ++ [last] ∧ jsonDocs sampleJSONTrace = [] ∧
        printfTexts sampleJSONTrace =
          (if false then ["Test ID: " ++ tid ++ "\n"] else []) ++
            passTexts (printPasses resolveGetOutput (pre ++ [last]) emptyIDs).2) :=
  ⟨by decide,
    one_rendering_mode false true sampleClient "example.com" "A" "8.8.8.8" "" [] 1
      sampleJSONTrace (by decide)⟩

theorem poll_error_fatal_witness :
    failingPollClient.DNSResolve sampleRequest = .ok "T1" ∧
    failingPollClient.DNSResolveOutput "T1" =
      [snapshotB].map Except.ok ++ [.error "poll failed"] ∧
    (∀ o ∈ [snapshotB], o.IsFinished = false) ∧
    ∃ tr, runDNSResolve true false failingPollClient "example.com" "A" "8.8.8.8" "" [] 1 =
        some (some "poll failed", tr) ∧
      fetchCount tr = [snapshotB].length + 1 ∧
      jsonDocs tr = [] ∧
      passCalls tr = (if false then [] else [snapshotB]) ∧
      stdoutText tr =
        ["\n"] ++ (if true && !false then ["Test ID: " ++ "T1" ++ "\n"] else []) ++
          (if false then []
            else passTexts (printPasses resolveGetOutput [snapshotB] emptyIDs).2) :=
  ⟨rfl, rfl, by decide,
    poll_error_fatal true false failingPollClient "example.com" "A" "8.8.8.8" "" [] 1
      "T1" [snapshotB] "poll failed" [] rfl rfl (by decide)⟩

/-- C7 as stated fails: against a service that accepts the test, answers the
unfinished scenario B and then fails, the run in text mode under `debug`
returns the fetch error having written the blank line and the `Test ID` line
before the two items, while the pass over the one snapshot fetched printed the
two items only. -/
theorem poll_error_text_counterexample :
    failingPollClient.DNSResolve sampleRequest = .ok "T1" ∧
    failingPollClient.DNSResolveOutput "T1" = [.ok snapshotB, .error "poll failed"] ∧
    snapshotB.IsFinished = false ∧
    (runDNSResolve true false failingPollClient "example.com" "A" "8.8.8.8" "" [] 1).map
        (fun r => (r.1, stdoutText r.2)) =
      some (some "poll failed",
        ["\n", "Test ID: T1\n", "Node7, AS15169, Paris, France\n93.184.216.34\n",
          "Node12, AS3320, Berlin, Germany\nNode unreachable\n"]) ∧
    passTexts (printPasses resolveGetOutput [snapshotB] emptyIDs).2 =
      ["Node7, AS15169, Paris, France\n93.184.216.34\n",
        "Node12, AS3320, Berlin, Germany\nNode unreachable\n"] ∧
    (runDNSResolve true false failingPollClient "example.com" "A" "8.8.8.8" "" [] 1).map
        (fun r => stdoutText r.2) ≠
      some (passTexts (printPasses resolveGetOutput [snapshotB] emptyIDs).2) := by
  refine ⟨rfl, rfl, rfl, ?_, ?_, ?_⟩ <;> decide

end PerfOps
